import Mathlib

/-!
Verification of the yoga-trainer pose-configuration module and angle
measurement tool.

The development shallowly embeds the two Python source files:

* `app/config/pose_angles.py` — the pydantic record types
  (`AngleDefinition`, `ConnectionDefinition`, `PoseAngleConfig`), the
  static table `POSE_ANGLE_DEFINITIONS`, and the registry accessors
  `get_pose_config`, `list_configured_poses`, `has_config`.
* `scripts/angle_measurement_tool.py` — the geometry primitive
  `calculate_angle`, the measurement-record construction performed by
  `calculate_and_draw_angle`, and the document shape produced by
  `save_measurements`.

Numeric configuration fields are decimal literals in the source and are
embedded as rationals; the geometry primitive works over the reals, with
`Option ℝ` making the IEEE NaN produced by a float division by zero
explicit (`none` = NaN, which numpy propagates through `clip`, `arccos`
and `degrees` without raising).
-/

set_option autoImplicit false

/-- Embeds pydantic model `AngleDefinition` (pose_angles.py, lines 10-16):
a joint angle to measure.  pydantic performs type checking only; no
field validator is declared, so construction is plain record formation. -/
structure AngleDefinition where
  name : String
  points : String × String × String
  target_angle : ℚ
  tolerance : ℚ
  weight : ℚ
  deriving DecidableEq

/-- Embeds pydantic model `ConnectionDefinition` (pose_angles.py, lines 19-25). -/
structure ConnectionDefinition where
  name : String
  point1 : String
  point2 : String
  max_distance : ℚ
  weight : ℚ
  deriving DecidableEq

/-- Embeds pydantic model `PoseAngleConfig` (pose_angles.py, lines 28-34).
`required_connections` is `Optional` with default `None` in the source. -/
structure PoseAngleConfig where
  pose_name : String
  view : String
  required_angles : List AngleDefinition
  required_keypoints : List String
  required_connections : Option (List ConnectionDefinition)
  deriving DecidableEq

/-- The thirteen-element keypoint list shared verbatim by every entry of
`POSE_ANGLE_DEFINITIONS` in the source. -/
def standardKeypoints : List String :=
  ["nose", "left_shoulder", "right_shoulder",
   "left_elbow", "right_elbow",
   "left_wrist", "right_wrist",
   "left_hip", "right_hip",
   "left_knee", "right_knee",
   "left_ankle", "right_ankle"]

/-- `POSE_ANGLE_DEFINITIONS["Akarna_Dhanurasana_front"]` (pose_angles.py,
lines 41-92).  Fields in declaration order: pose_name, view,
required_angles, required_keypoints, required_connections. -/
def akarnaDhanurasanaFront : PoseAngleConfig :=
  ⟨"Akarna_Dhanurasana_", "front",
   [⟨"Standing Leg (Right Knee)", ("right_hip", "right_knee", "right_ankle"), mkRat 562 10, 25, 5⟩,
    ⟨"right hand", ("right_shoulder", "right_elbow", "right_wrist"), mkRat 1739 10, 20, 2⟩,
    ⟨"left hand", ("left_shoulder", "left_elbow", "left_wrist"), mkRat 393 10, 25, 2⟩],
   standardKeypoints,
   some [⟨"Left hand holds right foot", "left_wrist", "right_ankle", mkRat 35 100, 2⟩,
         ⟨"Right hand holds left foot", "right_wrist", "left_ankle", mkRat 35 100, 2⟩]⟩

/-- `POSE_ANGLE_DEFINITIONS["Boat_Pose_or_Paripurna_Navasana__front"]`
(pose_angles.py, lines 94-149).  Note: the source really sets
`view="side"` under this `_front` key, and has no connections. -/
def boatPoseFront : PoseAngleConfig :=
  ⟨"Boat_Pose_or_Paripurna_Navasana__", "side",
   [⟨"left hand", ("left_shoulder", "left_elbow", "left_wrist"), mkRat 1758 10, 25, 2⟩,
    ⟨"left leg", ("left_hip", "left_knee", "left_ankle"), mkRat 1797 10, 25, 4⟩,
    ⟨"right leg", ("right_hip", "right_knee", "right_ankle"), mkRat 1798 10, 25, 4⟩,
    ⟨"right hand", ("right_shoulder", "right_elbow", "right_wrist"), mkRat 1692 10, 25, 2⟩,
    ⟨"left hip", ("left_hip", "left_knee", "left_ankle"), mkRat 835 10, 25, 5⟩],
   standardKeypoints,
   none⟩

/-- `POSE_ANGLE_DEFINITIONS["Bound_Angle_Pose_or_Baddha_Konasana__front"]`
(pose_angles.py, lines 156-220). -/
def boundAnglePoseFront : PoseAngleConfig :=
  ⟨"Bound_Angle_Pose_or_Baddha_Konasana__", "front",
   [⟨"right hand", ("right_shoulder", "right_elbow", "right_wrist"), mkRat 1754 10, 20, 2⟩,
    ⟨"left hand", ("left_shoulder", "left_elbow", "left_wrist"), mkRat 1784 10, 20, 2⟩,
    ⟨"right leg", ("right_hip", "right_knee", "right_ankle"), mkRat 169 10, 25, 4⟩,
    ⟨"left leg", ("left_hip", "left_knee", "left_ankle"), mkRat 132 10, 25, 4⟩],
   standardKeypoints,
   some [⟨"Left hand holds right foot", "left_wrist", "right_ankle", mkRat 35 100, 2⟩,
         ⟨"Right hand holds left foot", "right_wrist", "left_ankle", mkRat 35 100, 2⟩]⟩

/-- `POSE_ANGLE_DEFINITIONS["Bow_Pose_or_Dhanurasana__side"]`
(pose_angles.py, lines 223-287). -/
def bowPoseSide : PoseAngleConfig :=
  ⟨"Bow_Pose_or_Dhanurasana__", "side",
   [⟨"right hand", ("right_shoulder", "right_elbow", "right_wrist"), mkRat 1699 10, 20, 2⟩,
    ⟨"left hand", ("left_shoulder", "left_elbow", "left_wrist"), mkRat 1681 10, 20, 2⟩,
    ⟨"right leg", ("right_hip", "right_knee", "right_ankle"), mkRat 857 10, 25, 4⟩,
    ⟨"left leg", ("left_hip", "left_knee", "left_ankle"), mkRat 954 10, 25, 4⟩],
   standardKeypoints,
   some [⟨"Left hand holds left foot", "left_wrist", "left_ankle", mkRat 35 100, 2⟩,
         ⟨"Right hand holds right foot", "right_wrist", "right_ankle", mkRat 35 100, 2⟩]⟩

/-- `POSE_ANGLE_DEFINITIONS["Bridge_Pose_or_Setu_Bandha_Sarvangasana__front"]`
(pose_angles.py, lines 290-354). -/
def bridgePoseFront : PoseAngleConfig :=
  ⟨"Bridge_Pose_or_Setu_Bandha_Sarvangasana__", "front",
   [⟨"right leg", ("right_hip", "right_knee", "right_ankle"), mkRat 635 10, 20, 4⟩,
    ⟨"left leg", ("left_hip", "left_knee", "left_ankle"), mkRat 611 10, 20, 4⟩,
    ⟨"right hand", ("right_shoulder", "right_elbow", "right_wrist"), mkRat 1778 10, 20, 2⟩,
    ⟨"left hand", ("left_shoulder", "left_elbow", "left_wrist"), 176, 20, 2⟩],
   standardKeypoints,
   some [⟨"Left hand holds left foot", "left_wrist", "left_ankle", mkRat 35 100, 2⟩,
         ⟨"Right hand holds right foot", "right_wrist", "right_ankle", mkRat 35 100, 2⟩]⟩

/-- `POSE_ANGLE_DEFINITIONS["Camel_Pose_or_Ustrasana__side"]`
(pose_angles.py, lines 357-421). -/
def camelPoseSide : PoseAngleConfig :=
  ⟨"Camel_Pose_or_Ustrasana__", "side",
   [⟨"right hand", ("right_shoulder", "right_elbow", "right_wrist"), mkRat 1717 10, 20, 2⟩,
    ⟨"left hand", ("left_shoulder", "left_elbow", "left_wrist"), mkRat 1694 10, 20, 2⟩,
    ⟨"right leg", ("right_hip", "right_knee", "right_ankle"), mkRat 932 10, 20, 4⟩,
    ⟨"left leg", ("left_hip", "left_knee", "left_ankle"), 88, 25, 4⟩],
   standardKeypoints,
   some [⟨"Left hand holds left foot", "left_wrist", "left_ankle", mkRat 35 100, 2⟩,
         ⟨"Right hand holds right foot", "right_wrist", "right_ankle", mkRat 35 100, 2⟩]⟩

/-- `POSE_ANGLE_DEFINITIONS["Cat_Cow_Pose_or_Marjaryasana__side"]`
(pose_angles.py, lines 424-479).  The final "shoulder" criterion keeps the
source's unresolved placeholder landmark names. -/
def catCowPoseSide : PoseAngleConfig :=
  ⟨"Cat_Cow_Pose_or_Marjaryasana__", "side",
   [⟨"right hand", ("right_shoulder", "right_elbow", "right_wrist"), mkRat 1798 10, 25, 2⟩,
    ⟨"left hand", ("left_shoulder", "left_elbow", "left_wrist"), 179, 20, 2⟩,
    ⟨"right leg", ("right_hip", "right_knee", "right_ankle"), mkRat 1054 10, 25, 4⟩,
    ⟨"left leg", ("left_hip", "left_knee", "left_ankle"), mkRat 1031 10, 25, 4⟩,
    ⟨"shoulder", ("point1_name", "vertex_name", "point2_name"), mkRat 989 10, 30, 3⟩],
   standardKeypoints,
   none⟩

/-- `POSE_ANGLE_DEFINITIONS["Chair_Pose_or_Utkatasana__side"]`
(pose_angles.py, lines 482-537).  The final "shoulder" criterion keeps the
source's unresolved placeholder landmark names. -/
def chairPoseSide : PoseAngleConfig :=
  ⟨"Chair_Pose_or_Utkatasana__", "side",
   [⟨"right leg", ("right_hip", "right_knee", "right_ankle"), mkRat 905 10, 25, 2⟩,
    ⟨"left leg", ("left_hip", "left_knee", "left_ankle"), mkRat 928 10, 25, 4⟩,
    ⟨"right hand", ("right_shoulder", "right_elbow", "right_wrist"), 177, 25, 2⟩,
    ⟨"right hand", ("left_shoulder", "left_elbow", "left_wrist"), mkRat 1794 10, 25, 2⟩,
    ⟨"shoulder", ("point1_name", "vertex_name", "point2_name"), mkRat 707 10, 30, 4⟩],
   standardKeypoints,
   none⟩

/-- Embeds the dict `POSE_ANGLE_DEFINITIONS` (pose_angles.py, lines 38-539)
as an association list in the source's insertion order; the source keys are
pairwise distinct, so lookup semantics agree with the Python dict. -/
def POSE_ANGLE_DEFINITIONS : List (String × PoseAngleConfig) :=
  [("Akarna_Dhanurasana_front", akarnaDhanurasanaFront),
   ("Boat_Pose_or_Paripurna_Navasana__front", boatPoseFront),
   ("Bound_Angle_Pose_or_Baddha_Konasana__front", boundAnglePoseFront),
   ("Bow_Pose_or_Dhanurasana__side", bowPoseSide),
   ("Bridge_Pose_or_Setu_Bandha_Sarvangasana__front", bridgePoseFront),
   ("Camel_Pose_or_Ustrasana__side", camelPoseSide),
   ("Cat_Cow_Pose_or_Marjaryasana__side", catCowPoseSide),
   ("Chair_Pose_or_Utkatasana__side", chairPoseSide)]

/-- Embeds `get_pose_config` (pose_angles.py, lines 542-545): plain dict
indexing, so an absent key is a failure (`KeyError`), embedded as `none`. -/
def get_pose_config (pose_id : String) : Option PoseAngleConfig :=
  POSE_ANGLE_DEFINITIONS.lookup pose_id

/-- Lexicographic comparison of character lists by code point, the order
Python uses to compare strings. -/
def charListLe : List Char → List Char → Bool
  | [], _ => true
  | _ :: _, [] => false
  | c :: cs, d :: ds => if c < d then true else if d < c then false else charListLe cs ds

/-- Python's string comparison `s <= t`: lexicographic by code point. -/
def strLe (s t : String) : Bool := charListLe s.data t.data

/-- Insertion of a string into an already sorted list, the auxiliary step
of the embedding of Python's `sorted`. -/
def insertSorted (s : String) : List String → List String
  | [] => [s]
  | t :: ts => if strLe s t then s :: t :: ts else t :: insertSorted s ts

/-- Embedding of Python's `sorted` on lists of strings: insertion sort
with respect to the code-point order `strLe`. -/
def sortStrings : List String → List String
  | [] => []
  | s :: ss => insertSorted s (sortStrings ss)

/-- Embeds `list_configured_poses` (pose_angles.py, lines 548-550):
`sorted(list(POSE_ANGLE_DEFINITIONS.keys()))`. -/
def list_configured_poses : List String :=
  sortStrings (POSE_ANGLE_DEFINITIONS.map Prod.fst)

/-- Embeds `has_config` (pose_angles.py, lines 553-555):
`pose_id in POSE_ANGLE_DEFINITIONS`, i.e. key membership. -/
def has_config (pose_id : String) : Bool :=
  (POSE_ANGLE_DEFINITIONS.map Prod.fst).contains pose_id

/-- Modelled from the spec: the construction-time validation rules of
§4.2, which are absent from `src/` (the pydantic models declare no
validators).  Used only to compare the spec's claimed validation against
the specifications the source actually constructs and registers: every
landmark referenced by an angle or connection criterion must appear in
`required_keypoints`, `tolerance`, `weight` and `max_distance` must be
strictly positive, and `view` must be `front` or `side`. -/
def specValid (c : PoseAngleConfig) : Bool :=
  c.required_angles.all (fun a =>
    c.required_keypoints.contains a.points.1 &&
    c.required_keypoints.contains a.points.2.1 &&
    c.required_keypoints.contains a.points.2.2 &&
    decide (0 < a.tolerance) && decide (0 < a.weight)) &&
  (match c.required_connections with
   | none => true
   | some cs => cs.all (fun cn =>
       c.required_keypoints.contains cn.point1 &&
       c.required_keypoints.contains cn.point2 &&
       decide (0 < cn.max_distance) && decide (0 < cn.weight))) &&
  (c.view == "front" || c.view == "side")

/-- Modelled from the spec: `circular_angle_difference` (§4.1), part of
the scoring engine, which is not among the files under `src/`:
`min(|measured - target|, 360 - |measured - target|)`. -/
def circular_angle_difference (measured target : ℚ) : ℚ :=
  min |measured - target| (360 - |measured - target|)

/-- Embeds `AngleMeasurementTool.calculate_angle`
(angle_measurement_tool.py, lines 68-84) over real 2D points:
`cos_angle = dot(v1, v2) / (norm(v1) * norm(v2))`, clipped to `[-1, 1]`,
then `arccos` converted to degrees.  The source has no degeneracy branch
and no exception path: when the denominator is zero (either vector is the
zero vector) the float division is `0/0`, whose NaN result numpy
propagates through `clip`, `arccos` and `degrees`, so the call returns
NaN; `none` makes that NaN outcome explicit, and `some` carries the
numeric result of every other call. -/
noncomputable def calculate_angle (p1 vertex p2 : ℝ × ℝ) : Option ℝ :=
  let v1 : ℝ × ℝ := (p1.1 - vertex.1, p1.2 - vertex.2)
  let v2 : ℝ × ℝ := (p2.1 - vertex.1, p2.2 - vertex.2)
  let den : ℝ := Real.sqrt (v1.1 ^ 2 + v1.2 ^ 2) * Real.sqrt (v2.1 ^ 2 + v2.2 ^ 2)
  if den = 0 then none
  else
    let cos_angle : ℝ := (v1.1 * v2.1 + v1.2 * v2.2) / den
    let clipped : ℝ := max (-1) (min cos_angle 1)
    some (Real.arccos clipped * (180 / Real.pi))

/-- Embeds Python's `round(x, 1)`: rounding to one decimal place (the
half-way tie direction is immaterial to the properties proved here). -/
noncomputable def round1 (x : ℝ) : ℝ := (round (10 * x) : ℤ) / 10

/-- One `{"x": …, "y": …}` object of the measurement record
(angle_measurement_tool.py, lines 149-153). -/
structure PointRec where
  x : ℝ
  y : ℝ

/-- One measurement record as appended to `self.angles_measured` by
`calculate_and_draw_angle` (angle_measurement_tool.py, lines 144-154):
exactly the keys name, target_angle, tolerance, weight, points. -/
structure Measurement where
  name : String
  target_angle : Option ℝ
  tolerance : ℝ
  weight : ℝ
  points : List PointRec

/-- The JSON document built by `save_measurements`
(angle_measurement_tool.py, lines 273-277): exactly the top-level keys
image, total_angles, measurements. -/
structure SavedDoc where
  image : String
  total_angles : ℕ
  measurements : List Measurement

/-- Embeds the record-building effect of
`AngleMeasurementTool.calculate_and_draw_angle`
(angle_measurement_tool.py, lines 86-154): computes
`calculate_angle(p1, vertex, p2)`, then appends to `angles_measured` the
record with `target_angle = round(angle, 1)` and the three clicked points
(Python's `round` maps NaN to NaN, hence `Option.map`). -/
noncomputable def calculate_and_draw_angle (p1 vertex p2 : ℝ × ℝ)
    (angle_name : String) (tolerance weight : ℝ)
    (angles_measured : List Measurement) : List Measurement :=
  angles_measured ++
    [⟨angle_name, Option.map round1 (calculate_angle p1 vertex p2),
      tolerance, weight,
      [⟨p1.1, p1.2⟩, ⟨vertex.1, vertex.2⟩, ⟨p2.1, p2.2⟩]⟩]

/-- Embeds the document construction of
`AngleMeasurementTool.save_measurements`
(angle_measurement_tool.py, lines 265-280): the saved JSON is
`{image: str(image_path), total_angles: len(angles_measured),
measurements: angles_measured}`. -/
def save_measurements (image_path : String)
    (angles_measured : List Measurement) : SavedDoc :=
  ⟨image_path, angles_measured.length, angles_measured⟩

/-! ### Helper lemmas -/

theorem lookup_isSome_iff {α : Type} (a : String) :
    ∀ l : List (String × α), (l.lookup a).isSome = true ↔ a ∈ l.map Prod.fst
  | [] => by simp [List.lookup]
  | (k, v) :: es => by
    simp only [List.lookup, List.map_cons, List.mem_cons]
    cases h : a == k with
    | true => simp [eq_of_beq h]
    | false =>
      have hne : a ≠ k := by
        intro he; rw [he] at h; simp at h
      simp [hne, lookup_isSome_iff a es]

theorem lookup_mem {α : Type} (a : String) (b : α) :
    ∀ l : List (String × α), l.lookup a = some b → (a, b) ∈ l
  | [] => by simp [List.lookup]
  | (k, v) :: es => by
    simp only [List.lookup, List.mem_cons]
    cases h : a == k with
    | true =>
      intro hv
      left
      have : v = b := by simpa using hv
      rw [eq_of_beq h, this]
    | false =>
      intro hv
      exact Or.inr (lookup_mem a b es (by simpa using hv))

theorem mem_insertSorted (a s : String) :
    ∀ l : List String, a ∈ insertSorted s l ↔ a = s ∨ a ∈ l
  | [] => by simp [insertSorted]
  | t :: ts => by
    simp only [insertSorted]
    cases hst : strLe s t with
    | true => simp [List.mem_cons]
    | false =>
      rw [if_neg (by simp)]
      simp only [List.mem_cons, mem_insertSorted a s ts]
      tauto

theorem mem_sortStrings (a : String) :
    ∀ l : List String, a ∈ sortStrings l ↔ a ∈ l
  | [] => Iff.rfl
  | s :: ss => by
    simp only [sortStrings, mem_insertSorted, List.mem_cons, mem_sortStrings a ss]

theorem sqrt_normSq_eq_zero_iff (a b : ℝ) :
    Real.sqrt (a ^ 2 + b ^ 2) = 0 ↔ a = 0 ∧ b = 0 := by
  rw [Real.sqrt_eq_zero']
  constructor
  · intro h
    have h0 : a ^ 2 + b ^ 2 = 0 :=
      le_antisymm h (add_nonneg (sq_nonneg a) (sq_nonneg b))
    have := (add_eq_zero_iff_of_nonneg (sq_nonneg a) (sq_nonneg b)).mp h0
    exact ⟨sq_eq_zero_iff.mp this.1, sq_eq_zero_iff.mp this.2⟩
  · rintro ⟨rfl, rfl⟩
    norm_num

theorem calculate_angle_den_eq_zero_iff (p1 vertex p2 : ℝ × ℝ) :
    Real.sqrt ((p1.1 - vertex.1) ^ 2 + (p1.2 - vertex.2) ^ 2) *
      Real.sqrt ((p2.1 - vertex.1) ^ 2 + (p2.2 - vertex.2) ^ 2) = 0 ↔
    p1 = vertex ∨ p2 = vertex := by
  rw [mul_eq_zero, sqrt_normSq_eq_zero_iff, sqrt_normSq_eq_zero_iff]
  constructor
  · rintro (⟨h1, h2⟩ | ⟨h1, h2⟩)
    · exact Or.inl (Prod.ext (sub_eq_zero.mp h1) (sub_eq_zero.mp h2))
    · exact Or.inr (Prod.ext (sub_eq_zero.mp h1) (sub_eq_zero.mp h2))
  · rintro (rfl | rfl)
    · left; constructor <;> ring
    · right; constructor <;> ring

/-! ### Claim theorems: specification registry and construction -/

/-- C1 (counterexample): the claim asserts that construction fails with
`InvalidSpecification` whenever a criterion references a landmark absent
from the required landmarks.  In the source, `PoseAngleConfig` declares
no validator, and the registered `Cat_Cow_Pose_or_Marjaryasana__side`
specification was constructed and registered even though its "shoulder"
criterion references the landmark "point1_name", which is absent from
`required_keypoints` — a malformed input that produced a specification
value instead of raising. -/
theorem invalid_spec_constructed_counterexample :
    get_pose_config "Cat_Cow_Pose_or_Marjaryasana__side" = some catCowPoseSide ∧
    (⟨"shoulder", ("point1_name", "vertex_name", "point2_name"), mkRat 989 10, 30, 3⟩ :
        AngleDefinition) ∈ catCowPoseSide.required_angles ∧
    catCowPoseSide.required_keypoints.contains "point1_name" = false ∧
    specValid catCowPoseSide = false := by decide

/-- C1 (amended): construction performs no semantic validation (pydantic
checks field types only), so specifications violating the spec's §4.2
rules exist as constructed, registered values: exactly the
`Cat_Cow_Pose_or_Marjaryasana__side` and `Chair_Pose_or_Utkatasana__side`
entries of the registry violate the validation predicate (both through an
angle criterion referencing placeholder landmarks absent from
`required_keypoints`), and no construction failure occurs. -/
theorem construction_performs_no_validation :
    (POSE_ANGLE_DEFINITIONS.filter (fun p => !specValid p.2)).map Prod.fst =
      ["Cat_Cow_Pose_or_Marjaryasana__side", "Chair_Pose_or_Utkatasana__side"] := by decide

/-- C3 (counterexample): the claim asserts that every registry key is the
base pose name plus the view, with the view suffix agreeing with the
`view` field.  The entry registered under
`"Boat_Pose_or_Paripurna_Navasana__front"` — a key ending in `_front` —
has `view = "side"`, and its key is not `pose_name ++ view`. -/
theorem boat_view_suffix_counterexample :
    get_pose_config "Boat_Pose_or_Paripurna_Navasana__front" = some boatPoseFront ∧
    boatPoseFront.view = "side" ∧
    boatPoseFront.pose_name ++ boatPoseFront.view ≠
      "Boat_Pose_or_Paripurna_Navasana__front" := by decide

/-- C3 (amended): every registered entry except
`"Boat_Pose_or_Paripurna_Navasana__front"` has its key equal to
`pose_name ++ view` (so the key's view suffix agrees with the `view`
field); that one entry has view `"side"` under a `_front` key. -/
theorem registry_keys_match_views_except_boat :
    POSE_ANGLE_DEFINITIONS.all (fun p =>
      p.1 == "Boat_Pose_or_Paripurna_Navasana__front" ||
      p.1 == p.2.pose_name ++ p.2.view) = true := by decide

/-- C4: `get_pose_config` succeeds exactly on registered identifiers, and
whatever it returns is the registered specification for that identifier —
never a default or empty one; on an absent identifier the dict indexing
fails (`KeyError`, embedded as `none`). -/
theorem get_pose_config_spec (pose_id : String) :
    ((get_pose_config pose_id).isSome = true ↔
      pose_id ∈ POSE_ANGLE_DEFINITIONS.map Prod.fst) ∧
    ∀ c : PoseAngleConfig, get_pose_config pose_id = some c →
      (pose_id, c) ∈ POSE_ANGLE_DEFINITIONS :=
  ⟨lookup_isSome_iff pose_id POSE_ANGLE_DEFINITIONS,
   fun c h => lookup_mem pose_id c POSE_ANGLE_DEFINITIONS h⟩

/-- Witness for C4: a present identifier returns its registered
specification, and an unregistered identifier fails. -/
theorem get_pose_config_spec_witness :
    get_pose_config "Akarna_Dhanurasana_front" = some akarnaDhanurasanaFront ∧
    ("Akarna_Dhanurasana_front", akarnaDhanurasanaFront) ∈ POSE_ANGLE_DEFINITIONS ∧
    get_pose_config "nonexistent_id" = none := by
  have h1 : get_pose_config "Akarna_Dhanurasana_front" = some akarnaDhanurasanaFront := by
    decide
  have h2 := (get_pose_config_spec "Akarna_Dhanurasana_front").2 akarnaDhanurasanaFront h1
  have h3 : ¬("nonexistent_id" ∈ POSE_ANGLE_DEFINITIONS.map Prod.fst) := by decide
  have h4 : ¬((get_pose_config "nonexistent_id").isSome = true) := fun hs =>
    h3 ((get_pose_config_spec "nonexistent_id").1.mp hs)
  exact ⟨h1, h2, Option.not_isSome_iff_eq_none.mp h4⟩

/-- C5: `list_configured_poses` contains exactly the registered pose-view
identifiers, in sorted (code-point lexicographic, duplicate-free) order. -/
theorem list_configured_poses_complete_and_sorted :
    (∀ s : String, s ∈ list_configured_poses ↔
      s ∈ POSE_ANGLE_DEFINITIONS.map Prod.fst) ∧
    List.Pairwise (fun a b => strLe a b = true) list_configured_poses ∧
    list_configured_poses.Nodup := by
  refine ⟨fun s => mem_sortStrings s _, ?_, ?_⟩ <;> decide

/-- Witness for C5: the listing at the registry's single (immutable)
state, instantiated at a concrete identifier. -/
theorem list_configured_poses_complete_and_sorted_witness :
    "Chair_Pose_or_Utkatasana__side" ∈ list_configured_poses ∧
    List.Pairwise (fun a b => strLe a b = true) list_configured_poses := by
  refine ⟨(list_configured_poses_complete_and_sorted.1 _).mpr (by decide),
    list_configured_poses_complete_and_sorted.2.1⟩

/-- C9: the three registry operations agree — the existence query holds
exactly when the lookup succeeds, and exactly when the identifier occurs
in the listing. -/
theorem registry_operations_agree (pose_id : String) :
    (has_config pose_id = true ↔ (get_pose_config pose_id).isSome = true) ∧
    (has_config pose_id = true ↔ pose_id ∈ list_configured_poses) := by
  have hc : has_config pose_id = true ↔
      pose_id ∈ POSE_ANGLE_DEFINITIONS.map Prod.fst := List.elem_iff
  exact ⟨hc.trans (lookup_isSome_iff pose_id POSE_ANGLE_DEFINITIONS).symm,
    hc.trans (mem_sortStrings pose_id (POSE_ANGLE_DEFINITIONS.map Prod.fst)).symm⟩

/-- Witness for C9: the three operations agree on a registered id. -/
theorem registry_operations_agree_witness :
    has_config "Bow_Pose_or_Dhanurasana__side" = true ∧
    (get_pose_config "Bow_Pose_or_Dhanurasana__side").isSome = true ∧
    "Bow_Pose_or_Dhanurasana__side" ∈ list_configured_poses := by
  have h := registry_operations_agree "Bow_Pose_or_Dhanurasana__side"
  have hb : has_config "Bow_Pose_or_Dhanurasana__side" = true := by decide
  exact ⟨hb, h.1.mp hb, h.2.mp hb⟩

/-! ### Claim theorems: geometry primitive -/

/-- C2 (counterexample): the claim asserts that whenever either vector has
near-zero length (within an epsilon such as 1e-6) the primitive fails with
`DegenerateGeometry` and returns no numeric value.  The source defines no
such condition and performs no epsilon check: at `p1 = (1e-7, 0)`,
`vertex = (0, 0)`, `p2 = (1, 0)` the vector `p1 - vertex` has length
`1e-7 ≤ 1e-6`, yet `calculate_angle` returns the numeric value `0`. -/
theorem degenerate_claim_counterexample :
    Real.sqrt ((((1 : ℝ) / 10 ^ 7) - 0) ^ 2 + ((0 : ℝ) - 0) ^ 2) ≤ 1 / 10 ^ 6 ∧
    calculate_angle (1 / 10 ^ 7, 0) (0, 0) (1, 0) = some 0 := by
  have s1 : Real.sqrt ((((1 : ℝ) / 10 ^ 7) - 0) ^ 2 + ((0 : ℝ) - 0) ^ 2) = 1 / 10 ^ 7 := by
    rw [show (((1 : ℝ) / 10 ^ 7) - 0) ^ 2 + ((0 : ℝ) - 0) ^ 2 = (1 / 10 ^ 7) ^ 2 by ring,
      Real.sqrt_sq (by norm_num)]
  constructor
  · rw [s1]; norm_num
  · have s2 : Real.sqrt (((1 : ℝ) - 0) ^ 2 + ((0 : ℝ) - 0) ^ 2) = 1 := by
      rw [show ((1 : ℝ) - 0) ^ 2 + ((0 : ℝ) - 0) ^ 2 = 1 by ring, Real.sqrt_one]
    have hmax : max (-1 : ℝ) 1 = 1 := max_eq_right (by norm_num)
    simp only [calculate_angle, s1, s2]
    norm_num [hmax, Real.arccos_one]

/-- C2 (amended): the primitive has no degeneracy guard and no
`DegenerateGeometry` condition; it produces a non-numeric result (the NaN
of the `0/0` float division, embedded as `none`) exactly when one of the
two vectors is exactly zero, i.e. when a landmark coincides with the
vertex, and returns a numeric value for every other input — however short
the vectors — without raising. -/
theorem calculate_angle_nan_iff_degenerate (p1 vertex p2 : ℝ × ℝ) :
    calculate_angle p1 vertex p2 = none ↔ p1 = vertex ∨ p2 = vertex := by
  rw [← calculate_angle_den_eq_zero_iff p1 vertex p2]
  by_cases h : Real.sqrt ((p1.1 - vertex.1) ^ 2 + (p1.2 - vertex.2) ^ 2) *
      Real.sqrt ((p2.1 - vertex.1) ^ 2 + (p2.2 - vertex.2) ^ 2) = 0
  · simp only [calculate_angle]
    rw [if_pos h]
    exact iff_of_true rfl h
  · simp only [calculate_angle]
    rw [if_neg h]
    exact iff_of_false (by simp) h

/-- Witness for C2 (amended): a landmark coinciding with the vertex gives
the NaN result; the theorem applied at `p1 = vertex = (0,0)`. -/
theorem calculate_angle_nan_iff_degenerate_witness :
    calculate_angle (0, 0) (0, 0) (1, 0) = none :=
  (calculate_angle_nan_iff_degenerate (0, 0) (0, 0) (1, 0)).mpr (Or.inl rfl)

/-- C6: for nondegenerate inputs, `calculate_angle` returns the inverse
cosine, in degrees, of the normalized dot product of the two vectors with
the cosine argument clamped to `[-1, 1]`, and the value lies in
`[0, 180]`. -/
theorem calculate_angle_acos_formula_in_range (p1 vertex p2 : ℝ × ℝ)
    (h1 : p1 ≠ vertex) (h2 : p2 ≠ vertex) :
    ∃ θ : ℝ,
      calculate_angle p1 vertex p2 = some θ ∧
      θ = Real.arccos (max (-1) (min
            (((p1.1 - vertex.1) * (p2.1 - vertex.1) +
              (p1.2 - vertex.2) * (p2.2 - vertex.2)) /
              (Real.sqrt ((p1.1 - vertex.1) ^ 2 + (p1.2 - vertex.2) ^ 2) *
               Real.sqrt ((p2.1 - vertex.1) ^ 2 + (p2.2 - vertex.2) ^ 2))) 1)) *
          (180 / Real.pi) ∧
      0 ≤ θ ∧ θ ≤ 180 := by
  have hden : ¬(Real.sqrt ((p1.1 - vertex.1) ^ 2 + (p1.2 - vertex.2) ^ 2) *
      Real.sqrt ((p2.1 - vertex.1) ^ 2 + (p2.2 - vertex.2) ^ 2) = 0) := by
    intro h
    rcases (calculate_angle_den_eq_zero_iff p1 vertex p2).mp h with h | h
    exacts [h1 h, h2 h]
  refine ⟨_, ?_, rfl, ?_, ?_⟩
  · simp only [calculate_angle]
    rw [if_neg hden]
  · exact mul_nonneg (Real.arccos_nonneg _) (by positivity)
  · calc Real.arccos _ * (180 / Real.pi) ≤ Real.pi * (180 / Real.pi) :=
        mul_le_mul_of_nonneg_right (Real.arccos_le_pi _) (by positivity)
    _ = 180 := by field_simp

/-- Witness for C6: at a right angle (`p1 = (1,0)`, `vertex = (0,0)`,
`p2 = (0,1)`) the primitive returns a numeric value in `[0, 180]`. -/
theorem calculate_angle_acos_formula_in_range_witness :
    ((1, 0) : ℝ × ℝ) ≠ (0, 0) ∧ ((0, 1) : ℝ × ℝ) ≠ (0, 0) ∧
    ∃ θ : ℝ, calculate_angle (1, 0) (0, 0) (0, 1) = some θ ∧ 0 ≤ θ ∧ θ ≤ 180 := by
  have h1 : ((1, 0) : ℝ × ℝ) ≠ (0, 0) := fun h => one_ne_zero (congrArg Prod.fst h)
  have h2 : ((0, 1) : ℝ × ℝ) ≠ (0, 0) := fun h => one_ne_zero (congrArg Prod.snd h)
  obtain ⟨θ, hsome, _, hge, hle⟩ :=
    calculate_angle_acos_formula_in_range (1, 0) (0, 0) (0, 1) h1 h2
  exact ⟨h1, h2, θ, hsome, hge, hle⟩

/-- C10: the primitive is symmetric in its outer points: swapping `p1`
and `p2` leaves the result unchanged (the dot product and the product of
the vector norms are both symmetric). -/
theorem calculate_angle_symmetric (p1 vertex p2 : ℝ × ℝ)
    (_h1 : p1 ≠ vertex) (_h2 : p2 ≠ vertex) :
    calculate_angle p1 vertex p2 = calculate_angle p2 vertex p1 := by
  have e1 : (p1.1 - vertex.1) * (p2.1 - vertex.1) + (p1.2 - vertex.2) * (p2.2 - vertex.2)
      = (p2.1 - vertex.1) * (p1.1 - vertex.1) + (p2.2 - vertex.2) * (p1.2 - vertex.2) := by
    ring
  have e2 : Real.sqrt ((p1.1 - vertex.1) ^ 2 + (p1.2 - vertex.2) ^ 2) *
        Real.sqrt ((p2.1 - vertex.1) ^ 2 + (p2.2 - vertex.2) ^ 2)
      = Real.sqrt ((p2.1 - vertex.1) ^ 2 + (p2.2 - vertex.2) ^ 2) *
        Real.sqrt ((p1.1 - vertex.1) ^ 2 + (p1.2 - vertex.2) ^ 2) := mul_comm _ _
  simp only [calculate_angle]
  rw [e1, e2]

/-- Witness for C10: symmetry applied at the right-angle configuration. -/
theorem calculate_angle_symmetric_witness :
    ((1, 0) : ℝ × ℝ) ≠ (0, 0) ∧ ((0, 1) : ℝ × ℝ) ≠ (0, 0) ∧
    calculate_angle (1, 0) (0, 0) (0, 1) = calculate_angle (0, 1) (0, 0) (1, 0) := by
  have h1 : ((1, 0) : ℝ × ℝ) ≠ (0, 0) := fun h => one_ne_zero (congrArg Prod.fst h)
  have h2 : ((0, 1) : ℝ × ℝ) ≠ (0, 0) := fun h => one_ne_zero (congrArg Prod.snd h)
  exact ⟨h1, h2, calculate_angle_symmetric (1, 0) (0, 0) (0, 1) h1 h2⟩

/-! ### Claim theorems: circular difference and authoring-tool output -/

/-- C7 (spec-modelled): `circular_angle_difference` equals
`min(|measured - target|, 360 - |measured - target|)`, lies in `[0, 180]`
for angle values within a revolution, and in particular maps `(359, 2)`
to `3`, not `357`. -/
theorem circular_angle_difference_spec (measured target : ℚ)
    (hm0 : 0 ≤ measured) (hm1 : measured ≤ 360)
    (ht0 : 0 ≤ target) (ht1 : target ≤ 360) :
    circular_angle_difference measured target =
      min |measured - target| (360 - |measured - target|) ∧
    0 ≤ circular_angle_difference measured target ∧
    circular_angle_difference measured target ≤ 180 ∧
    circular_angle_difference 359 2 = 3 := by
  have habs : |measured - target| ≤ 360 := by
    rw [abs_le]
    constructor <;> linarith
  have habs0 : 0 ≤ |measured - target| := abs_nonneg _
  refine ⟨rfl, le_min habs0 (by linarith), ?_, ?_⟩
  · rcases le_total |measured - target| 180 with h | h
    · exact le_trans (min_le_left _ _) h
    · exact le_trans (min_le_right _ _) (by linarith)
  · rw [circular_angle_difference, show (359 : ℚ) - 2 = 357 by norm_num,
      abs_of_nonneg (by norm_num : (0 : ℚ) ≤ 357),
      min_eq_right (by norm_num : (360 - 357 : ℚ) ≤ 357)]
    norm_num

/-- Witness for C7: the wraparound pair `(359, 2)` satisfies the bounds
and yields difference `3`. -/
theorem circular_angle_difference_spec_witness :
    (0 : ℚ) ≤ 359 ∧ (359 : ℚ) ≤ 360 ∧ (0 : ℚ) ≤ 2 ∧ (2 : ℚ) ≤ 360 ∧
    0 ≤ circular_angle_difference 359 2 ∧
    circular_angle_difference 359 2 ≤ 180 ∧
    circular_angle_difference 359 2 = 3 := by
  have h := circular_angle_difference_spec 359 2
    (by norm_num) (by norm_num) (by norm_num) (by norm_num)
  exact ⟨by norm_num, by norm_num, by norm_num, by norm_num, h.2.1, h.2.2.1, h.2.2.2⟩

/-- C8: the saved document has exactly the top-level fields
`{image, total_angles, measurements}` with `total_angles` equal to the
number of measurements, and each measurement appended by the tool has
exactly the shape `{name, target_angle = round(angle, 1), tolerance,
weight, points = [p1, vertex, p2]}` with three point objects. -/
theorem saved_document_shape (image_path : String) (p1 vertex p2 : ℝ × ℝ)
    (angle_name : String) (tolerance weight : ℝ)
    (angles_measured : List Measurement)
    (hprev : ∀ m ∈ angles_measured, m.points.length = 3) :
    (save_measurements image_path
        (calculate_and_draw_angle p1 vertex p2 angle_name tolerance weight
          angles_measured)).image = image_path ∧
    (save_measurements image_path
        (calculate_and_draw_angle p1 vertex p2 angle_name tolerance weight
          angles_measured)).total_angles =
      (save_measurements image_path
        (calculate_and_draw_angle p1 vertex p2 angle_name tolerance weight
          angles_measured)).measurements.length ∧
    calculate_and_draw_angle p1 vertex p2 angle_name tolerance weight angles_measured =
      angles_measured ++
        [⟨angle_name, Option.map round1 (calculate_angle p1 vertex p2), tolerance, weight,
          [⟨p1.1, p1.2⟩, ⟨vertex.1, vertex.2⟩, ⟨p2.1, p2.2⟩]⟩] ∧
    (∀ m ∈ calculate_and_draw_angle p1 vertex p2 angle_name tolerance weight angles_measured,
      m.points.length = 3) := by
  refine ⟨rfl, rfl, rfl, ?_⟩
  intro m hm
  rcases List.mem_append.mp hm with h | h
  · exact hprev m h
  · rw [List.mem_singleton.mp h]
    rfl

/-- Witness for C8: starting from an empty measurement list, one recorded
angle yields a document whose `total_angles` matches its measurement
count, every record carrying three points. -/
theorem saved_document_shape_witness :
    (∀ m ∈ ([] : List Measurement), m.points.length = 3) ∧
    (save_measurements "img.jpg"
        (calculate_and_draw_angle (0, 0) (1, 0) (2, 2) "knee" 15 1 [])).total_angles =
      (save_measurements "img.jpg"
        (calculate_and_draw_angle (0, 0) (1, 0) (2, 2) "knee" 15 1 [])).measurements.length ∧
    (∀ m ∈ calculate_and_draw_angle (0, 0) (1, 0) (2, 2) "knee" 15 1
        ([] : List Measurement), m.points.length = 3) := by
  have h0 : ∀ m ∈ ([] : List Measurement), m.points.length = 3 := by simp
  have h := saved_document_shape "img.jpg" (0, 0) (1, 0) (2, 2) "knee" 15 1 [] h0
  exact ⟨h0, h.2.1, h.2.2.2⟩
